import Mathlib

/-!
Verification of `apimonitor` (configuration management and the health /
notification engine described by the specification).

The authoritative code for `MonitorConfig` and its operations is
`src/apimonitor/config.py`; it is embedded below.  The repository's
`models.py` (the `EndpointConfig` / `NotificationConfig` pydantic models),
the `HealthClassifier` and the `NotificationGovernor` are not present under
`src/`, so those parts are modelled from the specification, as marked in
their doc comments.

Python exceptions are embedded as the sum type `PyExc`; raising is the
`Except` monad.  Machine strings are Lean `String`s, Python `int` is `Int`.
-/

namespace ApiMonitor

/-- The kinds of Python exception that appear in the embedded code paths:
`ConfigurationError` (from `apimonitor.exceptions`), `yaml.YAMLError`,
`json.JSONDecodeError`, `ValueError` (raised by pydantic validators and
wrapped into a pydantic `ValidationError` at construction time), and a
catch-all for every other exception derived from `Exception`
(`IOError`, `AttributeError`, ...).  Every constructor carries its message. -/
inductive PyExc where
  | configurationError (msg : String)
  | yamlError (msg : String)
  | jsonDecodeError (msg : String)
  | validationError (msg : String)
  | otherError (msg : String)
deriving DecidableEq, Repr

/-- The message carried by an exception (its `str(e)`). -/
def PyExc.msg : PyExc → String
  | .configurationError m => m
  | .yamlError m => m
  | .jsonDecodeError m => m
  | .validationError m => m
  | .otherError m => m

/-- True exactly for a `ConfigurationError`. -/
def PyExc.isConfigurationError : PyExc → Bool
  | .configurationError _ => true
  | _ => false

/-- Modelled from the spec: `EndpointSpec` / `EndpointConfig` — the
repository's `models.py` is not under `src/`.  "immutable descriptor — id
(unique key), URL, HTTP method, headers, body, timeout, check interval, max
retries, expected status codes (set, default `{200}`), optional required
response substring, optional expected/SLA latency thresholds (ms), optional
SLA uptime percentage."  Latencies are milliseconds modelled as `Rat`. -/
structure EndpointConfig where
  id : String
  url : String := ""
  method : String := "GET"
  timeout_seconds : Rat := 10
  check_interval_seconds : Int := 300
  max_retries : Int := 3
  expected_status_codes : List Int := [200]
  response_contains : Option String := none
  expected_response_time_ms : Option Rat := none
  sla_response_time_ms : Option Rat := none
  sla_uptime_percentage : Option Rat := none
deriving DecidableEq, Repr

/-- Modelled from the spec: `NotificationChannel` config — the repository's
`models.py` is not under `src/`.  "id, type tag, enabled flag, trigger flags
{on_failure, on_recovery, on_degraded}, max_notifications_per_hour, cooldown
duration."  The channel-type tag and provider payload are irrelevant to the
claims and kept as an opaque string / omitted. -/
structure NotificationConfig where
  type : String := "console"
  enabled : Bool := true
  on_failure : Bool := true
  on_recovery : Bool := true
  on_degraded : Bool := false
  max_notifications_per_hour : Nat := 10
  cooldown_minutes : Nat := 0
deriving DecidableEq, Repr

/-- Embeds `MonitorConfig` (src/apimonitor/config.py, lines 16–38): the validated
configuration record.  Only fields that some embedded operation reads are
kept; the others are configuration payload with no behaviour. -/
structure MonitorConfig where
  log_level : String := "INFO"
  max_history_days : Int := 30
  endpoints : List EndpointConfig := []
  notifications : List (String × NotificationConfig) := []
deriving DecidableEq, Repr

/-- Python's `str.upper()` over the character sequence (ASCII case map). -/
def pyUpper (s : String) : String := ⟨s.data.map Char.toUpper⟩

/-- Python's `str.lower()` over the character sequence (ASCII case map). -/
def pyLower (s : String) : String := ⟨s.data.map Char.toLower⟩

/-- The valid logging levels of `validate_log_level`
(src/apimonitor/config.py line 42). -/
def valid_levels : List String := ["DEBUG", "INFO", "WARNING", "ERROR", "CRITICAL"]

/-- Embeds `MonitorConfig.validate_log_level` (src/apimonitor/config.py lines
40–45): a pydantic validator; `v.upper()` is `pyUpper`.  Raising
`ValueError` in a validator surfaces as a pydantic `ValidationError`. -/
def validate_log_level (v : String) : Except PyExc String :=
  if pyUpper v ∈ valid_levels then .ok (pyUpper v)
  else .error (.validationError ("Log level must be one of " ++ toString valid_levels))

/-- Embeds `MonitorConfig.validate_history_days` (src/apimonitor/config.py lines
47–51): rejects `v < 1`, returns `v` unchanged otherwise. -/
def validate_history_days (v : Int) : Except PyExc Int :=
  if v < 1 then .error (.validationError "max_history_days must be at least 1")
  else .ok v

/-- The raw (pre-validation) field values handed to the `MonitorConfig`
pydantic constructor. -/
structure RawMonitorConfig where
  log_level : String := "INFO"
  max_history_days : Int := 30
  endpoints : List EndpointConfig := []
  notifications : List (String × NotificationConfig) := []
deriving Repr

/-- Embeds `MonitorConfig(**config_data)`: pydantic construction runs the two
field validators in declaration order and stores their results; any
`ValueError` surfaces as a `ValidationError`. -/
def MonitorConfig.construct (raw : RawMonitorConfig) : Except PyExc MonitorConfig :=
  match validate_log_level raw.log_level with
  | .error e => .error e
  | .ok lvl =>
    match validate_history_days raw.max_history_days with
    | .error e => .error e
    | .ok days =>
      .ok { log_level := lvl, max_history_days := days,
            endpoints := raw.endpoints, notifications := raw.notifications }

/-- Embeds `MonitorConfig.add_endpoint` (src/apimonitor/config.py lines 53–60):
raises `ConfigurationError` when `endpoint.id` occurs among the existing
ids, otherwise appends the endpoint at the end of `self.endpoints`. -/
def MonitorConfig.add_endpoint (c : MonitorConfig) (endpoint : EndpointConfig) :
    Except PyExc MonitorConfig :=
  if (c.endpoints.map (fun ep => ep.id)).contains endpoint.id then
    .error (.configurationError ("Endpoint ID " ++ endpoint.id ++ " already exists"))
  else
    .ok { c with endpoints := c.endpoints ++ [endpoint] }

/-- Embeds `MonitorConfig.get_endpoint` (src/apimonitor/config.py lines 66–71):
returns the first endpoint whose id matches, `None` otherwise. -/
def MonitorConfig.get_endpoint (c : MonitorConfig) (endpoint_id : String) :
    Option EndpointConfig :=
  c.endpoints.find? (fun endpoint => endpoint.id == endpoint_id)

/-- The loop body of `remove_endpoint`: delete the first list element whose
id matches, reporting whether one was found. -/
def removeFirstById (endpoint_id : String) :
    List EndpointConfig → Bool × List EndpointConfig
  | [] => (false, [])
  | ep :: rest =>
    if ep.id == endpoint_id then (true, rest)
    else
      let (found, rest') := removeFirstById endpoint_id rest
      (found, ep :: rest')

/-- Embeds `MonitorConfig.remove_endpoint` (src/apimonitor/config.py lines 73–79):
deletes the first endpoint whose id matches and returns `True`; returns
`False` leaving the list unchanged when none matches. -/
def MonitorConfig.remove_endpoint (c : MonitorConfig) (endpoint_id : String) :
    Bool × MonitorConfig :=
  let (found, eps) := removeFirstById endpoint_id c.endpoints
  (found, { c with endpoints := eps })

/-- The raw dictionary obtained by `yaml.safe_load` / `json.load`, as
consumed by `parse_config_data`.  Each entry of `data.get('endpoints', [])`
is fed to the `EndpointConfig(**ep_data)` constructor, which may raise; the
entry is therefore embedded as the constructor's result, and likewise for
notifications.  The remaining keys are the raw `MonitorConfig` fields. -/
structure ConfigData where
  endpoints : List (Except PyExc EndpointConfig) := []
  notifications : List (String × Except PyExc NotificationConfig) := []
  log_level : String := "INFO"
  max_history_days : Int := 30

/-- Running a list comprehension whose element constructor may raise:
the first exception aborts the comprehension. -/
def seqExcept : List (Except PyExc α) → Except PyExc (List α)
  | [] => .ok []
  | x :: xs =>
    match x with
    | .error e => .error e
    | .ok a =>
      match seqExcept xs with
      | .error e => .error e
      | .ok as => .ok (a :: as)

/-- Running the notifications dict comprehension, keeping the names. -/
def seqExceptNamed : List (String × Except PyExc α) → Except PyExc (List (String × α))
  | [] => .ok []
  | (name, x) :: xs =>
    match x with
    | .error e => .error e
    | .ok a =>
      match seqExceptNamed xs with
      | .error e => .error e
      | .ok as => .ok ((name, a) :: as)

/-- Embeds `MonitorConfig.parse_config_data` (src/apimonitor/config.py lines
107–129): builds the endpoint and notification lists, constructs the
`MonitorConfig`, and wraps any exception into a `ConfigurationError`. -/
def parse_config_data_body (data : ConfigData) : Except PyExc MonitorConfig :=
  match seqExcept data.endpoints with
  | .error e => .error e
  | .ok endpoints =>
    match seqExceptNamed data.notifications with
    | .error e => .error e
    | .ok notifications =>
      MonitorConfig.construct { log_level := data.log_level,
                                max_history_days := data.max_history_days,
                                endpoints := endpoints,
                                notifications := notifications }

def MonitorConfig.parse_config_data (data : ConfigData) : Except PyExc MonitorConfig :=
  match parse_config_data_body data with
  | .ok c => .ok c
  | .error e => .error (.configurationError ("Error parsing configuration: " ++ e.msg))

/-- Embeds `MonitorConfig.from_file` (src/apimonitor/config.py lines 81–105).  The
filesystem interaction is abstracted: `file_exists` is `file_path.exists()`,
`suffix` is `file_path.suffix`, `open_result` is the outcome of
`open(file_path, 'r')`, and `yaml_load` / `json_load` are the outcomes of
`yaml.safe_load(f)` / `json.load(f)` on the file's contents.  The `except`
clauses are matched in source order: `yaml.YAMLError` and
`json.JSONDecodeError` get their dedicated messages, every other exception
(a `ConfigurationError` included, since it derives from `Exception`) is
wrapped by the catch-all. -/
def from_file_parse (suffix : String)
    (yaml_load json_load : Except PyExc ConfigData) : Except PyExc ConfigData :=
  if pyLower suffix == ".yaml" || pyLower suffix == ".yml" then yaml_load
  else if pyLower suffix == ".json" then json_load
  else .error (.configurationError ("Unsupported file format: " ++ suffix))

/-- Embeds the body of the `try` block of `from_file`: open the file, load it according
to the suffix, hand the data to `parse_config_data`. -/
def from_file_body (suffix : String) (open_result : Except PyExc Unit)
    (yaml_load json_load : Except PyExc ConfigData) : Except PyExc MonitorConfig :=
  match open_result with
  | .error e => .error e
  | .ok _ =>
    match from_file_parse suffix yaml_load json_load with
    | .error e => .error e
    | .ok data => MonitorConfig.parse_config_data data

/-- Embeds the `except` clauses of `from_file`, matched in source order:
`yaml.YAMLError` and `json.JSONDecodeError` get dedicated messages; every
other exception (a `ConfigurationError` included, since it derives from
`Exception`) is wrapped by the catch-all. -/
def from_file_wrap : PyExc → PyExc
  | .yamlError m => .configurationError ("Invalid YAML in config file: " ++ m)
  | .jsonDecodeError m => .configurationError ("Invalid JSON in config file: " ++ m)
  | e => .configurationError ("Error reading config file: " ++ e.msg)

def MonitorConfig.from_file (file_exists : Bool) (suffix : String)
    (open_result : Except PyExc Unit)
    (yaml_load json_load : Except PyExc ConfigData) : Except PyExc MonitorConfig :=
  if !file_exists then
    .error (.configurationError "Configuration file not found")
  else
    match from_file_body suffix open_result yaml_load json_load with
    | .ok c => .ok c
    | .error e => .error (from_file_wrap e)

/-- Embeds `MonitorConfig.to_file` (src/apimonitor/config.py lines 131–150).
`self.dict()` cannot raise and happens before the `try`.  Abstracted
effects: `mkdir_result` is `file_path.parent.mkdir(...)`, `open_result` is
`open(file_path, 'w')`, `yaml_dump` / `json_dump` are the serialisation
calls.  Any exception escaping the `try` body — the unsupported-format
`ConfigurationError` included — is wrapped by the catch-all. -/
def to_file_body (mkdir_result open_result : Except PyExc Unit)
    (yaml_dump json_dump : Except PyExc Unit) (suffix : String) :
    Except PyExc Unit :=
  match mkdir_result with
  | .error e => .error e
  | .ok _ =>
    match open_result with
    | .error e => .error e
    | .ok _ =>
      if pyLower suffix == ".yaml" || pyLower suffix == ".yml" then yaml_dump
      else if pyLower suffix == ".json" then json_dump
      else .error (.configurationError ("Unsupported file format: " ++ suffix))

def MonitorConfig.to_file (mkdir_result open_result : Except PyExc Unit)
    (yaml_dump json_dump : Except PyExc Unit) (suffix : String) :
    Except PyExc Unit :=
  match to_file_body mkdir_result open_result yaml_dump json_dump suffix with
  | .ok _ => .ok ()
  | .error e => .error (.configurationError ("Error writing config file: " ++ e.msg))

/-- Modelled from the spec: `CheckOutcome` — the prober and its result type
are not under `src/`.  "one probe result — timestamp, success flag, status
code (optional, absent on network failure), latency in milliseconds
(optional), error description (optional)." -/
structure CheckOutcome where
  timestamp : Nat := 0
  success : Bool
  status_code : Option Int := none
  latency_ms : Option Rat := none
  body : Option String := none
  error : Option String := none

/-- Modelled from the spec: `HealthVerdict` — "enumeration of HEALTHY, DEGRADED, UNHEALTHY". -/
inductive HealthVerdict where
  | HEALTHY
  | DEGRADED
  | UNHEALTHY
deriving DecidableEq, Repr

/-- Whether the outcome's latency exceeds a configured threshold; an unset
threshold never triggers, ties (`==` threshold) count as passing. -/
def latencyExceeds (latency_ms : Option Rat) (threshold : Option Rat) : Bool :=
  match threshold, latency_ms with
  | some thr, some l => thr < l
  | some _, none => false
  | none, _ => false

/-- Modelled from the spec: `HealthClassifier.classify` — the classifier is
not under `src/`.  "Rules, evaluated in order: 1. `outcome.success ==
false` → UNHEALTHY.  2. `outcome.status_code` not in
`spec.expected_status_codes` → UNHEALTHY.  3. `spec.response_contains` set
and substring absent from body → UNHEALTHY.  4. `spec.sla_response_time_ms`
set and `outcome.latency_ms` exceeds it → UNHEALTHY.
5. `spec.expected_response_time_ms` set and `outcome.latency_ms` exceeds it
(but within SLA) → DEGRADED.  6. Otherwise → HEALTHY." -/
def classify (spec : EndpointConfig) (outcome : CheckOutcome) : HealthVerdict :=
  if outcome.success = false then .UNHEALTHY
  else if !(match outcome.status_code with
            | some c => spec.expected_status_codes.contains c
            | none => false) then .UNHEALTHY
  else if (match spec.response_contains with
           | some s => !(match outcome.body with
                         | some b => b.containsSubstr s.toSubstring
                         | none => false)
           | none => false) then .UNHEALTHY
  else if latencyExceeds outcome.latency_ms spec.sla_response_time_ms then .UNHEALTHY
  else if latencyExceeds outcome.latency_ms spec.expected_response_time_ms then .DEGRADED
  else .HEALTHY

/-- The kind of a `HealthEvent`, as used by the governor's trigger flags. -/
inductive EventKind where
  | failure
  | recovery
  | degraded
deriving DecidableEq, Repr

/-- Modelled from the spec: the governor's per-(channel, endpoint) mutable
throttle state — "sliding-window send timestamps, last-sent-at".  Times are
Unix seconds; `send_times` holds the recorded send timestamps, most recent
first. -/
structure ThrottleState where
  send_times : List Nat := []
  last_sent_at : Option Nat := none
deriving DecidableEq, Repr

/-- Whether a channel's trigger flags match an event kind. -/
def NotificationConfig.triggersOn (ch : NotificationConfig) : EventKind → Bool
  | .failure => ch.on_failure
  | .recovery => ch.on_recovery
  | .degraded => ch.on_degraded

/-- Modelled from the spec: the cooldown gate — "if `now - last_sent_at
[channel, endpoint] < cooldown_minutes`, suppress".  Passes when nothing was
ever sent. -/
def cooldown_gate (ch : NotificationConfig) (st : ThrottleState) (now : Nat) : Bool :=
  match st.last_sent_at with
  | none => true
  | some t => ch.cooldown_minutes * 60 ≤ now - t

/-- A timestamp `t` lies within the trailing one-hour window ending at
`now`, i.e. `now - t < 3600` seconds. -/
def in_window (now t : Nat) : Bool := now < t + 3600

/-- Modelled from the spec: the rate gate — "maintain a sliding one-hour
window of send timestamps per (channel, endpoint); if count in window ≥
`max_notifications_per_hour`, suppress". -/
def rate_gate (ch : NotificationConfig) (st : ThrottleState) (now : Nat) : Bool :=
  (st.send_times.filter (in_window now)).length < ch.max_notifications_per_hour

/-- Modelled from the spec: `NotificationGovernor.dispatch` restricted to
one (channel, endpoint) pair — the governor is not under `src/`.  A channel
with `enabled=false` is skipped and never mutates throttle state; an
enabled channel whose trigger flags match the event kind passes the
cooldown gate then the rate gate; a suppressed event is dropped silently
(state unchanged, nothing queued); on send, the timestamp is recorded for
both gates (delivery failure still counts, so the outcome of the external
`Notifier.send` does not appear here). -/
def dispatch_channel (ch : NotificationConfig) (kind : EventKind)
    (st : ThrottleState) (now : Nat) : Bool × ThrottleState :=
  if !ch.enabled then (false, st)
  else if !ch.triggersOn kind then (false, st)
  else if !cooldown_gate ch st now then (false, st)
  else if !rate_gate ch st now then (false, st)
  else (true, { send_times := now :: st.send_times, last_sent_at := some now })

/-- Dispatching a stream of events for one endpoint on one channel,
threading the throttle state; returns the per-event delivery decisions and
the final state. -/
def dispatch_sequence (ch : NotificationConfig) (st : ThrottleState) :
    List (EventKind × Nat) → List Bool × ThrottleState
  | [] => ([], st)
  | (kind, t) :: rest =>
    let (sent, st') := dispatch_channel ch kind st t
    let (sents, stFinal) := dispatch_sequence ch st' rest
    (sent :: sents, stFinal)

/-- An endpoint-list operation of `MonitorConfig`: `add_endpoint` or
`remove_endpoint`. -/
inductive ConfigOp where
  | add (e : EndpointConfig)
  | remove (i : String)

/-- Running one operation on a configuration.  A raising `add_endpoint`
leaves the configuration exactly as it was (the exception propagates to the
caller and nothing was mutated before the raise). -/
def applyOp (c : MonitorConfig) : ConfigOp → MonitorConfig
  | .add e =>
    match c.add_endpoint e with
    | .ok c' => c'
    | .error _ => c
  | .remove i => (c.remove_endpoint i).2

/-- Running a sequence of operations. -/
def applyOps (c : MonitorConfig) : List ConfigOp → MonitorConfig
  | [] => c
  | op :: ops => applyOps (applyOp c op) ops

/-- The default `MonitorConfig`: empty endpoint list. -/
def emptyConfig : MonitorConfig := {}

/-! ### Helper lemmas -/

/-- Membership of an id among the mapped ids, as the code's
`endpoint.id in existing_ids` test. -/
theorem contains_id_iff (l : List EndpointConfig) (i : String) :
    (l.map (fun ep => ep.id)).contains i = true ↔ ∃ ep ∈ l, ep.id = i := by
  simp [List.contains, List.elem_iff, List.mem_map]

/-- The behaviour of `add_endpoint` as one equation. -/
theorem add_endpoint_eq (c : MonitorConfig) (e : EndpointConfig) :
    c.add_endpoint e =
      if ∃ ep ∈ c.endpoints, ep.id = e.id then
        .error (.configurationError ("Endpoint ID " ++ e.id ++ " already exists"))
      else
        .ok { c with endpoints := c.endpoints ++ [e] } := by
  by_cases h : ∃ ep ∈ c.endpoints, ep.id = e.id
  · rw [if_pos h]
    have hc := (contains_id_iff c.endpoints e.id).mpr h
    unfold MonitorConfig.add_endpoint
    rw [hc, if_pos rfl]
  · rw [if_neg h]
    have hc : (c.endpoints.map (fun ep => ep.id)).contains e.id = false := by
      have hnt : ¬ (c.endpoints.map (fun ep => ep.id)).contains e.id = true :=
        fun hcon => h ((contains_id_iff c.endpoints e.id).mp hcon)
      rwa [Bool.not_eq_true] at hnt
    unfold MonitorConfig.add_endpoint
    rw [hc, if_neg (by simp)]

/-! ### C1 — add_endpoint raises exactly on duplicate id, else appends -/

/-- C1: `add_endpoint(c, e)` raises `ConfigurationError` if and only if
some endpoint already in `c.endpoints` has an id equal to `e.id`; when it
does not raise, it appends `e` at the end of `c.endpoints` (all other
fields unchanged). -/
theorem add_endpoint_duplicate_iff (c : MonitorConfig) (e : EndpointConfig) :
    c.add_endpoint e =
      if ∃ ep ∈ c.endpoints, ep.id = e.id then
        .error (.configurationError ("Endpoint ID " ++ e.id ++ " already exists"))
      else
        .ok { c with endpoints := c.endpoints ++ [e] } :=
  add_endpoint_eq c e

/-! ### C2 — classify returns UNHEALTHY on every failed outcome -/

/-- C2: for every check outcome whose success flag is false, `classify`
returns UNHEALTHY, regardless of the outcome's status code, latency, body,
or error fields and regardless of the endpoint's expectations. -/
theorem classify_failure_unhealthy (spec : EndpointConfig) (outcome : CheckOutcome)
    (h : outcome.success = false) : classify spec outcome = .UNHEALTHY := by
  simp [classify, h]

/-- Witness for C2 at a concrete failed outcome carrying a status code,
latency and body that would otherwise classify as HEALTHY. -/
theorem classify_failure_unhealthy_witness :
    classify { id := "ep" }
      { success := false, status_code := some 200, latency_ms := some 5,
        body := some "ok", error := some "timeout" } = .UNHEALTHY :=
  classify_failure_unhealthy _ _ rfl

/-! ### C5 — max_history_days validation -/

/-- C5: constructing a `MonitorConfig` (with a valid log level) rejects
`max_history_days < 1` with a validation error, and accepts and stores
unchanged every `max_history_days ≥ 1`. -/
theorem max_history_days_validation (raw : RawMonitorConfig)
    (hlvl : pyUpper raw.log_level ∈ valid_levels) :
    (1 ≤ raw.max_history_days →
      ∃ c, MonitorConfig.construct raw = .ok c ∧
        c.max_history_days = raw.max_history_days) ∧
    (raw.max_history_days < 1 →
      ∃ msg, MonitorConfig.construct raw = .error (.validationError msg)) := by
  constructor
  · intro hge
    refine ⟨{ log_level := pyUpper raw.log_level,
              max_history_days := raw.max_history_days,
              endpoints := raw.endpoints,
              notifications := raw.notifications }, ?_, rfl⟩
    simp [MonitorConfig.construct, validate_log_level, validate_history_days, hlvl,
      not_lt.mpr hge]
  · intro hlt
    refine ⟨"max_history_days must be at least 1", ?_⟩
    simp [MonitorConfig.construct, validate_log_level, validate_history_days, hlvl,
      hlt]

/-- Witness for C5 at log level "info": 5 is accepted and stored, 0 is
rejected with a validation error. -/
theorem max_history_days_validation_witness :
    (∃ c, MonitorConfig.construct { log_level := "info", max_history_days := 5 } = .ok c ∧
      c.max_history_days = 5) ∧
    (∃ msg, MonitorConfig.construct { log_level := "info", max_history_days := 0 } =
      .error (.validationError msg)) :=
  ⟨(max_history_days_validation { log_level := "info", max_history_days := 5 }
      (by decide)).1 (by decide),
   (max_history_days_validation { log_level := "info", max_history_days := 0 }
      (by decide)).2 (by decide)⟩

/-! ### C9 — log_level validation -/

/-- C9: construction (with valid `max_history_days`) accepts a `log_level`
string iff its uppercase form is one of DEBUG, INFO, WARNING, ERROR,
CRITICAL, stores the uppercased form, and hence every stored `log_level`
is one of those five uppercase strings. -/
theorem log_level_validation (raw : RawMonitorConfig)
    (hd : 1 ≤ raw.max_history_days) :
    ((∃ c, MonitorConfig.construct raw = .ok c) ↔ pyUpper raw.log_level ∈ valid_levels) ∧
    (∀ c, MonitorConfig.construct raw = .ok c →
      c.log_level = pyUpper raw.log_level ∧ c.log_level ∈ valid_levels) := by
  have hd' : ¬ raw.max_history_days < 1 := not_lt.mpr hd
  constructor
  · constructor
    · rintro ⟨c, hc⟩
      by_contra hnot
      simp [MonitorConfig.construct, validate_log_level, hnot] at hc
    · intro hmem
      exact ⟨{ log_level := pyUpper raw.log_level,
               max_history_days := raw.max_history_days,
               endpoints := raw.endpoints,
               notifications := raw.notifications },
        by simp [MonitorConfig.construct, validate_log_level,
          validate_history_days, hmem, hd']⟩
  · intro c hc
    by_cases hmem : pyUpper raw.log_level ∈ valid_levels
    · simp [MonitorConfig.construct, validate_log_level, validate_history_days,
        hmem, hd'] at hc
      rw [← hc]
      exact ⟨rfl, hmem⟩
    · simp [MonitorConfig.construct, validate_log_level, hmem] at hc

/-- Witness for C9 at `max_history_days = 30`: "warning" is accepted (its
uppercase form is WARNING) and stored as "WARNING". -/
theorem log_level_validation_witness :
    ((∃ c, MonitorConfig.construct { log_level := "warning" } = .ok c) ↔
      (pyUpper "warning" ∈ valid_levels)) ∧
    (∀ c, MonitorConfig.construct { log_level := "warning" } = .ok c →
      c.log_level = pyUpper "warning" ∧ c.log_level ∈ valid_levels) :=
  log_level_validation { log_level := "warning" } (by decide)

/-! ### C7 — get_endpoint after add_endpoint -/

/-- Finding a freshly appended endpoint: no earlier element matches its id,
so the search reaches the appended one. -/
theorem find_appended (l : List EndpointConfig) (e : EndpointConfig)
    (h : ∀ ep ∈ l, ep.id ≠ e.id) :
    (l ++ [e]).find? (fun ep => ep.id == e.id) = some e := by
  induction l with
  | nil => simp [List.find?]
  | cons a as ih =>
    have ha : (a.id == e.id) = false := by
      simp only [beq_eq_false_iff_ne]
      exact h a (List.mem_cons_self a as)
    simp only [List.cons_append, List.find?, ha]
    exact ih (fun ep hep => h ep (List.mem_cons_of_mem a hep))

/-- C7: immediately after a successful `add_endpoint(e)`, `get_endpoint
(e.id)` returns `e`; and for every id that matches no endpoint in the list,
`get_endpoint` returns `None`. -/
theorem get_endpoint_roundtrip (c : MonitorConfig) (e : EndpointConfig) (i : String)
    (hnew : ∀ ep ∈ c.endpoints, ep.id ≠ e.id) :
    (∃ c', c.add_endpoint e = .ok c' ∧ c'.get_endpoint e.id = some e) ∧
    ((∀ ep ∈ c.endpoints, ep.id ≠ i) → c.get_endpoint i = none) := by
  constructor
  · have hno : ¬ ∃ ep ∈ c.endpoints, ep.id = e.id := by
      rintro ⟨ep, hmem, hid⟩
      exact hnew ep hmem hid
    refine ⟨{ c with endpoints := c.endpoints ++ [e] }, ?_, ?_⟩
    · rw [add_endpoint_eq, if_neg hno]
    · exact find_appended c.endpoints e hnew
  · intro hnone
    apply List.find?_eq_none.mpr
    intro ep hmem
    simp only [beq_eq_false_iff_ne, ne_eq, Bool.not_eq_true, beq_eq_false_iff_ne]
    exact hnone ep hmem

/-- Witness for C7: adding an endpoint with a fresh id to a one-endpoint
configuration, then looking it up; and looking up an absent id. -/
theorem get_endpoint_roundtrip_witness :
    (∃ c', ({ endpoints := [{ id := "a" }] } : MonitorConfig).add_endpoint { id := "b" } =
        .ok c' ∧ c'.get_endpoint "b" = some { id := "b" }) ∧
    ((∀ ep ∈ ({ endpoints := [{ id := "a" }] } : MonitorConfig).endpoints, ep.id ≠ "zzz") →
      ({ endpoints := [{ id := "a" }] } : MonitorConfig).get_endpoint "zzz" = none) :=
  get_endpoint_roundtrip { endpoints := [{ id := "a" }] } { id := "b" } "zzz"
    (by decide)

/-! ### C8 — remove_endpoint -/

/-- When no element matches, `removeFirstById` reports `false` and returns
the list unchanged. -/
theorem removeFirstById_not_found (i : String) (l : List EndpointConfig)
    (h : ∀ ep ∈ l, ep.id ≠ i) : removeFirstById i l = (false, l) := by
  induction l with
  | nil => rfl
  | cons a as ih =>
    have ha : (a.id == i) = false := by
      simp only [beq_eq_false_iff_ne]
      exact h a (List.mem_cons_self a as)
    simp only [removeFirstById, ha, Bool.false_eq_true, if_false,
      ih (fun ep hep => h ep (List.mem_cons_of_mem a hep))]

/-- When some element matches, `removeFirstById` reports `true` and deletes
exactly the first matching element, keeping everything else in order. -/
theorem removeFirstById_found (i : String) (l : List EndpointConfig)
    (h : ∃ ep ∈ l, ep.id = i) :
    ∃ l₁ x l₂, l = l₁ ++ x :: l₂ ∧ (∀ y ∈ l₁, y.id ≠ i) ∧ x.id = i ∧
      removeFirstById i l = (true, l₁ ++ l₂) := by
  induction l with
  | nil => simp at h
  | cons a as ih =>
    by_cases ha : a.id = i
    · refine ⟨[], a, as, by simp, by simp, ha, ?_⟩
      have hab : (a.id == i) = true := by simp [ha]
      simp [removeFirstById, hab]
    · obtain ⟨ep, hmem, hid⟩ := h
      rcases List.mem_cons.mp hmem with rfl | hmem'
      · exact absurd hid ha
      obtain ⟨l₁, x, l₂, heq, hnone, hx, hrm⟩ := ih ⟨ep, hmem', hid⟩
      refine ⟨a :: l₁, x, l₂, by simp [heq], ?_, hx, ?_⟩
      · intro y hy
        rcases List.mem_cons.mp hy with rfl | hy'
        · exact ha
        · exact hnone y hy'
      · have hab : (a.id == i) = false := by
          simp only [beq_eq_false_iff_ne]
          exact ha
        simp [removeFirstById, hab, hrm]

/-- C8: `remove_endpoint(i)` returns `True` and deletes exactly the first
endpoint whose id matches, leaving all other endpoints in their original
order, when such an endpoint exists; it returns `False` and leaves the
configuration completely unchanged when no endpoint has that id. -/
theorem remove_endpoint_spec (c : MonitorConfig) (i : String) :
    ((∀ ep ∈ c.endpoints, ep.id ≠ i) → c.remove_endpoint i = (false, c)) ∧
    ((∃ ep ∈ c.endpoints, ep.id = i) →
      ∃ l₁ x l₂, c.endpoints = l₁ ++ x :: l₂ ∧ (∀ y ∈ l₁, y.id ≠ i) ∧ x.id = i ∧
        c.remove_endpoint i = (true, { c with endpoints := l₁ ++ l₂ })) := by
  constructor
  · intro h
    simp [MonitorConfig.remove_endpoint, removeFirstById_not_found i c.endpoints h]
  · intro h
    obtain ⟨l₁, x, l₂, heq, hnone, hx, hrm⟩ := removeFirstById_found i c.endpoints h
    exact ⟨l₁, x, l₂, heq, hnone, hx, by
      simp [MonitorConfig.remove_endpoint, hrm]⟩

/-- Witness for C8 on a three-endpoint configuration with a duplicate-free
prefix: removing "b" succeeds, removing "zzz" is a no-op returning false. -/
theorem remove_endpoint_spec_witness :
    (({ endpoints := [{ id := "a" }, { id := "b" }, { id := "c" }] } : MonitorConfig).remove_endpoint
        "zzz" = (false, { endpoints := [{ id := "a" }, { id := "b" }, { id := "c" }] })) ∧
    (∃ l₁ x l₂,
      ({ endpoints := [{ id := "a" }, { id := "b" }, { id := "c" }] } : MonitorConfig).endpoints =
        l₁ ++ x :: l₂ ∧ (∀ y ∈ l₁, y.id ≠ "b") ∧ x.id = "b" ∧
      ({ endpoints := [{ id := "a" }, { id := "b" }, { id := "c" }] } : MonitorConfig).remove_endpoint
        "b" = (true, { endpoints := l₁ ++ l₂ })) :=
  ⟨(remove_endpoint_spec { endpoints := [{ id := "a" }, { id := "b" }, { id := "c" }] }
      "zzz").1 (by decide),
   (remove_endpoint_spec { endpoints := [{ id := "a" }, { id := "b" }, { id := "c" }] }
      "b").2 ⟨{ id := "b" }, by decide, rfl⟩⟩

/-! ### C4 — distinct endpoint ids are an invariant -/

/-- The list returned by `removeFirstById` is a sublist of the input. -/
theorem removeFirstById_sublist (i : String) (l : List EndpointConfig) :
    (removeFirstById i l).2.Sublist l := by
  induction l with
  | nil => simp [removeFirstById]
  | cons a as ih =>
    by_cases ha : (a.id == i) = true
    · simp only [removeFirstById, ha, if_true]
      exact List.sublist_cons_self a as
    · rw [Bool.not_eq_true] at ha
      simp only [removeFirstById, ha, Bool.false_eq_true, if_false]
      exact ih.cons₂ a

/-- One operation preserves distinctness of the endpoint ids. -/
theorem applyOp_nodup (c : MonitorConfig) (op : ConfigOp)
    (h : (c.endpoints.map (fun ep => ep.id)).Nodup) :
    ((applyOp c op).endpoints.map (fun ep => ep.id)).Nodup := by
  cases op with
  | add e =>
    by_cases hdup : ∃ ep ∈ c.endpoints, ep.id = e.id
    · simp only [applyOp, add_endpoint_eq, if_pos hdup]
      exact h
    · simp only [applyOp, add_endpoint_eq, if_neg hdup]
      rw [List.map_append]
      rw [List.nodup_append]
      refine ⟨h, List.nodup_singleton e.id, ?_⟩
      intro x hx hy
      simp only [List.map_cons, List.map_nil, List.mem_singleton] at hy
      obtain ⟨ep, hmem, hid⟩ := List.mem_map.mp hx
      exact hdup ⟨ep, hmem, by rw [hid, hy]⟩
  | remove i =>
    simp only [applyOp, MonitorConfig.remove_endpoint]
    exact h.sublist ((removeFirstById_sublist i c.endpoints).map _)

/-- A sequence of operations preserves distinctness of the endpoint ids. -/
theorem applyOps_nodup (ops : List ConfigOp) (c : MonitorConfig)
    (h : (c.endpoints.map (fun ep => ep.id)).Nodup) :
    ((applyOps c ops).endpoints.map (fun ep => ep.id)).Nodup := by
  induction ops generalizing c with
  | nil => exact h
  | cons op ops ih => exact ih (applyOp c op) (applyOp_nodup c op h)

/-- C4: pairwise-distinct endpoint ids are preserved by `add_endpoint`
(also when it raises, in which case the configuration is unchanged) and by
`remove_endpoint`; hence any sequence of these operations starting from the
empty endpoint list keeps all ids distinct. -/
theorem distinct_ids_invariant (c : MonitorConfig) (op : ConfigOp)
    (ops : List ConfigOp)
    (h : (c.endpoints.map (fun ep => ep.id)).Nodup) :
    ((applyOp c op).endpoints.map (fun ep => ep.id)).Nodup ∧
    (∀ e, (¬ ∃ c', c.add_endpoint e = .ok c') → applyOp c (.add e) = c) ∧
    ((applyOps emptyConfig ops).endpoints.map (fun ep => ep.id)).Nodup := by
  refine ⟨applyOp_nodup c op h, ?_, applyOps_nodup ops emptyConfig (by simp [emptyConfig])⟩
  intro e hraise
  by_cases hdup : ∃ ep ∈ c.endpoints, ep.id = e.id
  · simp only [applyOp, add_endpoint_eq, if_pos hdup]
  · exact absurd ⟨_, by rw [add_endpoint_eq, if_neg hdup]⟩ hraise

/-- Witness for C4: one add on a two-endpoint duplicate-free configuration,
and a four-operation history from the empty configuration. -/
theorem distinct_ids_invariant_witness :
    ((applyOp { endpoints := [{ id := "a" }, { id := "b" }] } (.add { id := "c" })).endpoints.map
        (fun ep => ep.id)).Nodup ∧
    (∀ e, (¬ ∃ c', ({ endpoints := [{ id := "a" }, { id := "b" }] } : MonitorConfig).add_endpoint e =
        .ok c') →
      applyOp { endpoints := [{ id := "a" }, { id := "b" }] } (.add e) =
        { endpoints := [{ id := "a" }, { id := "b" }] }) ∧
    ((applyOps emptyConfig
        [.add { id := "a" }, .add { id := "b" }, .add { id := "a" }, .remove "a"]).endpoints.map
        (fun ep => ep.id)).Nodup :=
  distinct_ids_invariant { endpoints := [{ id := "a" }, { id := "b" }] } (.add { id := "c" })
    [.add { id := "a" }, .add { id := "b" }, .add { id := "a" }, .remove "a"] (by decide)

/-! ### C10 — to_file raises only ConfigurationError -/

/-- A failing `try` body makes `to_file` report a `ConfigurationError`. -/
theorem to_file_of_body_error
    (mkdir_result open_result yaml_dump json_dump : Except PyExc Unit)
    (suffix : String) (e₀ : PyExc)
    (hb : to_file_body mkdir_result open_result yaml_dump json_dump suffix = .error e₀) :
    MonitorConfig.to_file mkdir_result open_result yaml_dump json_dump suffix =
      .error (.configurationError ("Error writing config file: " ++ e₀.msg)) := by
  unfold MonitorConfig.to_file
  rw [hb]

/-- With an unsupported suffix, the `try` body of `to_file` always
raises. -/
theorem to_file_body_error_of_suffix
    (mkdir_result open_result yaml_dump json_dump : Except PyExc Unit)
    (suffix : String) (h : pyLower suffix ∉ [".yaml", ".yml", ".json"]) :
    ∃ e₀, to_file_body mkdir_result open_result yaml_dump json_dump suffix =
      .error e₀ := by
  simp only [List.mem_cons, List.not_mem_nil, or_false, not_or] at h
  obtain ⟨h1, h2, h3⟩ := h
  cases mkdir_result with
  | error em => exact ⟨em, by simp [to_file_body]⟩
  | ok _ =>
    cases open_result with
    | error eo => exact ⟨eo, by simp [to_file_body]⟩
    | ok _ =>
      exact ⟨.configurationError ("Unsupported file format: " ++ suffix),
        by simp [to_file_body, h1, h2, h3]⟩

/-- C10: `to_file` raises only `ConfigurationError` on failure — whatever
the outcomes of the directory creation, the file opening and the dump —
and for every target path whose extension is not .yaml, .yml or .json it
always raises a `ConfigurationError`. -/
theorem to_file_only_configuration_error
    (mkdir_result open_result yaml_dump json_dump : Except PyExc Unit)
    (suffix : String) :
    (∀ e, MonitorConfig.to_file mkdir_result open_result yaml_dump json_dump suffix =
        .error e → e.isConfigurationError = true) ∧
    (pyLower suffix ∉ [".yaml", ".yml", ".json"] →
      ∃ msg, MonitorConfig.to_file mkdir_result open_result yaml_dump json_dump suffix =
        .error (.configurationError msg)) := by
  constructor
  · intro e he
    unfold MonitorConfig.to_file at he
    cases hb : to_file_body mkdir_result open_result yaml_dump json_dump suffix with
    | error e' =>
      rw [hb] at he
      simp only [Except.error.injEq] at he
      rw [← he]
      rfl
    | ok u =>
      rw [hb] at he
      exact absurd he (by simp)
  · intro hsuf
    obtain ⟨e₀, hb⟩ := to_file_body_error_of_suffix mkdir_result open_result
      yaml_dump json_dump suffix hsuf
    exact ⟨"Error writing config file: " ++ e₀.msg,
      to_file_of_body_error mkdir_result open_result yaml_dump json_dump suffix e₀ hb⟩

/-- Witness for C10: writing to a ".txt" path with all effects succeeding
still raises a `ConfigurationError`. -/
theorem to_file_only_configuration_error_witness :
    ∃ msg, MonitorConfig.to_file (.ok ()) (.ok ()) (.ok ()) (.ok ()) ".txt" =
      .error (.configurationError msg) :=
  (to_file_only_configuration_error (.ok ()) (.ok ()) (.ok ()) (.ok ()) ".txt").2
    (by decide)

/-! ### C3 — from_file raises only ConfigurationError and returns
parse_config_data's result on success -/

/-- Every wrapped `from_file` exception is a `ConfigurationError`. -/
theorem from_file_wrap_shape (e : PyExc) :
    ∃ m, from_file_wrap e = .configurationError m := by
  cases e <;> exact ⟨_, rfl⟩

/-- On an existing file, a failing `try` body makes `from_file` report a
`ConfigurationError`. -/
theorem from_file_true_error (suffix : String) (open_result : Except PyExc Unit)
    (yaml_load json_load : Except PyExc ConfigData) (e₀ : PyExc)
    (hb : from_file_body suffix open_result yaml_load json_load = .error e₀) :
    ∃ m, MonitorConfig.from_file true suffix open_result yaml_load json_load =
      .error (.configurationError m) := by
  obtain ⟨m, hm⟩ := from_file_wrap_shape e₀
  exact ⟨m, by simp [MonitorConfig.from_file, hb, hm]⟩

/-- A failing loader or format check fails the whole `try` body. -/
theorem from_file_body_error_of_parse (suffix : String)
    (open_result : Except PyExc Unit) (yaml_load json_load : Except PyExc ConfigData)
    (e₀ : PyExc) (hp : from_file_parse suffix yaml_load json_load = .error e₀) :
    ∃ e₁, from_file_body suffix open_result yaml_load json_load = .error e₁ := by
  cases open_result with
  | error eo => exact ⟨eo, by simp [from_file_body]⟩
  | ok u => exact ⟨e₀, by simp [from_file_body, hp]⟩

/-- A failing `parse_config_data` fails the whole `try` body. -/
theorem from_file_body_error_of_data (suffix : String)
    (open_result : Except PyExc Unit) (yaml_load json_load : Except PyExc ConfigData)
    (d : ConfigData) (e' : PyExc)
    (hp : from_file_parse suffix yaml_load json_load = .ok d)
    (hd : MonitorConfig.parse_config_data d = .error e') :
    ∃ e₁, from_file_body suffix open_result yaml_load json_load = .error e₁ := by
  cases open_result with
  | error eo => exact ⟨eo, by simp [from_file_body]⟩
  | ok u => exact ⟨e', by simp [from_file_body, hp, hd]⟩

/-- Which loader produced the data handed to `parse_config_data`. -/
theorem from_file_parse_cases (suffix : String)
    (yaml_load json_load : Except PyExc ConfigData) (d : ConfigData)
    (hp : from_file_parse suffix yaml_load json_load = .ok d) :
    ((pyLower suffix = ".yaml" ∨ pyLower suffix = ".yml") ∧ yaml_load = .ok d) ∨
    (pyLower suffix = ".json" ∧ json_load = .ok d) := by
  unfold from_file_parse at hp
  by_cases hy : (pyLower suffix == ".yaml" || pyLower suffix == ".yml") = true
  · rw [if_pos hy] at hp
    refine Or.inl ⟨?_, hp⟩
    have hy' : pyLower suffix = ".yaml" ∨ pyLower suffix = ".yml" := by
      simpa using hy
    exact hy'
  · rw [if_neg hy] at hp
    by_cases hj : (pyLower suffix == ".json") = true
    · rw [if_pos hj] at hp
      exact Or.inr ⟨by simpa using hj, hp⟩
    · rw [if_neg hj] at hp
      exact absurd hp (by simp)

/-- The format dispatch picks the YAML loader on a .yaml/.yml suffix. -/
theorem from_file_parse_yaml (suffix : String)
    (yaml_load json_load : Except PyExc ConfigData)
    (h : pyLower suffix = ".yaml" ∨ pyLower suffix = ".yml") :
    from_file_parse suffix yaml_load json_load = yaml_load := by
  rcases h with h | h <;> simp [from_file_parse, h]

/-- The format dispatch picks the JSON loader on a .json suffix. -/
theorem from_file_parse_json (suffix : String)
    (yaml_load json_load : Except PyExc ConfigData)
    (h : pyLower suffix = ".json") :
    from_file_parse suffix yaml_load json_load = json_load := by
  simp [from_file_parse, h]

/-- An unsupported suffix makes the format dispatch raise. -/
theorem from_file_parse_unsupported (suffix : String)
    (yaml_load json_load : Except PyExc ConfigData)
    (h : pyLower suffix ∉ [".yaml", ".yml", ".json"]) :
    from_file_parse suffix yaml_load json_load =
      .error (.configurationError ("Unsupported file format: " ++ suffix)) := by
  simp only [List.mem_cons, List.not_mem_nil, or_false, not_or] at h
  obtain ⟨h1, h2, h3⟩ := h
  simp [from_file_parse, h1, h2, h3]

/-- C3: `from_file` raises `ConfigurationError` — and no other kind of
exception — whenever the file does not exist, the extension is not .yaml,
.yml or .json, the contents are malformed (the loader raises), or the
parsed data fails validation (`parse_config_data` raises); on success it
returns exactly the configuration built by `parse_config_data` from the
loaded contents. -/
theorem from_file_only_configuration_error (file_exists : Bool) (suffix : String)
    (open_result : Except PyExc Unit) (yaml_load json_load : Except PyExc ConfigData) :
    (∀ e, MonitorConfig.from_file file_exists suffix open_result yaml_load json_load =
        .error e → e.isConfigurationError = true) ∧
    (file_exists = false →
      ∃ m, MonitorConfig.from_file file_exists suffix open_result yaml_load json_load =
        .error (.configurationError m)) ∧
    (pyLower suffix ∉ [".yaml", ".yml", ".json"] →
      ∃ m, MonitorConfig.from_file file_exists suffix open_result yaml_load json_load =
        .error (.configurationError m)) ∧
    (∀ e', ((pyLower suffix = ".yaml" ∨ pyLower suffix = ".yml") ∧ yaml_load = .error e') ∨
        (pyLower suffix = ".json" ∧ json_load = .error e') →
      ∃ m, MonitorConfig.from_file file_exists suffix open_result yaml_load json_load =
        .error (.configurationError m)) ∧
    (∀ d e', (((pyLower suffix = ".yaml" ∨ pyLower suffix = ".yml") ∧ yaml_load = .ok d) ∨
        (pyLower suffix = ".json" ∧ json_load = .ok d)) →
      MonitorConfig.parse_config_data d = .error e' →
      ∃ m, MonitorConfig.from_file file_exists suffix open_result yaml_load json_load =
        .error (.configurationError m)) ∧
    (∀ c, MonitorConfig.from_file file_exists suffix open_result yaml_load json_load =
        .ok c →
      ∃ d, (((pyLower suffix = ".yaml" ∨ pyLower suffix = ".yml") ∧ yaml_load = .ok d) ∨
        (pyLower suffix = ".json" ∧ json_load = .ok d)) ∧
        MonitorConfig.parse_config_data d = .ok c) := by
  cases file_exists with
  | false =>
    refine ⟨?_, ?_, ?_, ?_, ?_, ?_⟩
    · intro e he
      simp only [MonitorConfig.from_file, Bool.not_false, if_true,
        Except.error.injEq] at he
      rw [← he]
      rfl
    · intro _
      exact ⟨"Configuration file not found", by simp [MonitorConfig.from_file]⟩
    · intro _
      exact ⟨"Configuration file not found", by simp [MonitorConfig.from_file]⟩
    · intro e' _
      exact ⟨"Configuration file not found", by simp [MonitorConfig.from_file]⟩
    · intro d e' _ _
      exact ⟨"Configuration file not found", by simp [MonitorConfig.from_file]⟩
    · intro c hc
      simp [MonitorConfig.from_file] at hc
  | true =>
    refine ⟨?_, ?_, ?_, ?_, ?_, ?_⟩
    · intro e he
      simp only [MonitorConfig.from_file, Bool.not_true, Bool.false_eq_true,
        if_false] at he
      cases hb : from_file_body suffix open_result yaml_load json_load with
      | error e' =>
        rw [hb] at he
        simp only [Except.error.injEq] at he
        obtain ⟨m, hm⟩ := from_file_wrap_shape e'
        rw [← he, hm]
        rfl
      | ok c =>
        rw [hb] at he
        exact absurd he (by simp)
    · intro hfe
      exact absurd hfe (by simp)
    · intro hsuf
      obtain ⟨e₁, hb⟩ := from_file_body_error_of_parse suffix open_result
        yaml_load json_load _ (from_file_parse_unsupported suffix yaml_load json_load hsuf)
      exact from_file_true_error suffix open_result yaml_load json_load e₁ hb
    · rintro e' (⟨hsufy, hyl⟩ | ⟨hsufj, hjl⟩)
      · obtain ⟨e₁, hb⟩ := from_file_body_error_of_parse suffix open_result
          yaml_load json_load e' (by
            rw [from_file_parse_yaml suffix yaml_load json_load hsufy, hyl])
        exact from_file_true_error suffix open_result yaml_load json_load e₁ hb
      · obtain ⟨e₁, hb⟩ := from_file_body_error_of_parse suffix open_result
          yaml_load json_load e' (by
            rw [from_file_parse_json suffix yaml_load json_load hsufj, hjl])
        exact from_file_true_error suffix open_result yaml_load json_load e₁ hb
    · rintro d e' hload hd
      have hp : from_file_parse suffix yaml_load json_load = .ok d := by
        rcases hload with ⟨hsufy, hyl⟩ | ⟨hsufj, hjl⟩
        · rw [from_file_parse_yaml suffix yaml_load json_load hsufy, hyl]
        · rw [from_file_parse_json suffix yaml_load json_load hsufj, hjl]
      obtain ⟨e₁, hb⟩ := from_file_body_error_of_data suffix open_result
        yaml_load json_load d e' hp hd
      exact from_file_true_error suffix open_result yaml_load json_load e₁ hb
    · intro c hc
      simp only [MonitorConfig.from_file, Bool.not_true, Bool.false_eq_true,
        if_false] at hc
      cases hb : from_file_body suffix open_result yaml_load json_load with
      | error e' =>
        rw [hb] at hc
        exact absurd hc (by simp)
      | ok c' =>
        rw [hb] at hc
        simp only [Except.ok.injEq] at hc
        subst hc
        unfold from_file_body at hb
        cases open_result with
        | error eo => exact absurd hb (by simp)
        | ok u =>
          cases hp : from_file_parse suffix yaml_load json_load with
          | error e₂ =>
            rw [hp] at hb
            exact absurd hb (by simp)
          | ok d =>
            rw [hp] at hb
            exact ⟨d, from_file_parse_cases suffix yaml_load json_load d hp, hb⟩

/-- Witness for C3: a missing file, a .txt extension, a malformed YAML
file, and a successful .json load each exercise one hypothesis at a
concrete input. -/
theorem from_file_only_configuration_error_witness :
    (∃ m, MonitorConfig.from_file false ".yaml" (.ok ()) (.ok {}) (.ok {}) =
      .error (.configurationError m)) ∧
    (∃ m, MonitorConfig.from_file true ".txt" (.ok ()) (.ok {}) (.ok {}) =
      .error (.configurationError m)) ∧
    (∃ m, MonitorConfig.from_file true ".yaml" (.ok ())
      (.error (.yamlError "mapping values are not allowed here")) (.ok {}) =
      .error (.configurationError m)) ∧
    (∃ d, (((pyLower ".json" = ".yaml" ∨ pyLower ".json" = ".yml") ∧
        (.ok {} : Except PyExc ConfigData) = .ok d) ∨
      (pyLower ".json" = ".json" ∧ (.ok {} : Except PyExc ConfigData) = .ok d)) ∧
      MonitorConfig.parse_config_data d =
        .ok { log_level := "INFO", max_history_days := 30 }) :=
  ⟨(from_file_only_configuration_error false ".yaml" (.ok ()) (.ok {}) (.ok {})).2.1 rfl,
   (from_file_only_configuration_error true ".txt" (.ok ()) (.ok {}) (.ok {})).2.2.1
     (by decide),
   (from_file_only_configuration_error true ".yaml" (.ok ())
     (.error (.yamlError "mapping values are not allowed here")) (.ok {})).2.2.2.1
     (.yamlError "mapping values are not allowed here") (Or.inl ⟨Or.inl (by decide), rfl⟩),
   (from_file_only_configuration_error true ".json" (.ok ()) (.ok {}) (.ok {})).2.2.2.2.2
     { log_level := "INFO", max_history_days := 30 } rfl⟩

/-! ### C6 — rate limit: two deliveries out of three events in one hour -/

/-- C6: on a channel with `max_notifications_per_hour = 2` (enabled,
triggering on the event kind, with no cooldown in the way), three
qualifying events within one hour for the same endpoint yield exactly two
deliveries and one suppression, and the suppressed event is dropped — the
final throttle state records only the two delivered timestamps and nothing
is queued. -/
theorem rate_limit_two_of_three (ch : NotificationConfig) (k : EventKind)
    (t₁ t₂ t₃ : Nat)
    (hen : ch.enabled = true) (htr : ch.triggersOn k = true)
    (hcd : ch.cooldown_minutes = 0) (hmax : ch.max_notifications_per_hour = 2)
    (h12 : t₁ ≤ t₂) (h23 : t₂ ≤ t₃) (hwin : t₃ < t₁ + 3600) :
    dispatch_sequence ch { send_times := [], last_sent_at := none }
        [(k, t₁), (k, t₂), (k, t₃)] =
      ([true, true, false], { send_times := [t₂, t₁], last_sent_at := some t₂ }) := by
  have hw21 : in_window t₂ t₁ = true := by
    simp only [in_window, decide_eq_true_eq]
    omega
  have hw31 : in_window t₃ t₁ = true := by
    simp only [in_window, decide_eq_true_eq]
    omega
  have hw32 : in_window t₃ t₂ = true := by
    simp only [in_window, decide_eq_true_eq]
    omega
  have s1 : dispatch_channel ch k { send_times := [], last_sent_at := none } t₁ =
      (true, { send_times := [t₁], last_sent_at := some t₁ }) := by
    simp [dispatch_channel, hen, htr, cooldown_gate, rate_gate, hmax]
  have s2 : dispatch_channel ch k { send_times := [t₁], last_sent_at := some t₁ } t₂ =
      (true, { send_times := [t₂, t₁], last_sent_at := some t₂ }) := by
    simp [dispatch_channel, hen, htr, cooldown_gate, hcd, rate_gate, hmax, hw21]
  have s3 : dispatch_channel ch k { send_times := [t₂, t₁], last_sent_at := some t₂ } t₃ =
      (false, { send_times := [t₂, t₁], last_sent_at := some t₂ }) := by
    simp [dispatch_channel, hen, htr, cooldown_gate, hcd, rate_gate, hmax, hw31, hw32]
  simp [dispatch_sequence, s1, s2, s3]

/-- Witness for C6: three failure events at times 0, 600 and 1200 seconds
on a channel with limit 2 — delivered, delivered, suppressed-and-dropped. -/
theorem rate_limit_two_of_three_witness :
    dispatch_sequence
        { max_notifications_per_hour := 2, cooldown_minutes := 0 }
        { send_times := [], last_sent_at := none }
        [(.failure, 0), (.failure, 600), (.failure, 1200)] =
      ([true, true, false], { send_times := [600, 0], last_sent_at := some 600 }) :=
  rate_limit_two_of_three
    { max_notifications_per_hour := 2, cooldown_minutes := 0 } .failure 0 600 1200
    rfl rfl rfl rfl (by decide) (by decide) (by decide)

end ApiMonitor
